import Mathlib

/-!
Shallow embedding of `src/gnes/indexer/leveldb.py`: the synchronous
`LVDBIndexer` (a batched put/get wrapper over a LevelDB store) and the
asynchronous `AsyncLVDBIndexer` (a write-behind façade with a job queue,
a busy flag, an exit signal and a background flusher thread).

External collaborators (the `plyvel` storage engine and Python's `pickle`)
are modelled by their contracts: the store is an ordered byte-keyed
key-value store with last-write-wins puts and point lookups; pickle is an
opaque injective byte encoding with round trip (the spec treats the
serialization format as out of scope beyond "opaque byte encoding").
-/

set_option autoImplicit false

namespace Gnes

/-- A universe of Python values that can appear as keys or documents:
None, ints, strings, lists and dicts (lists and dicts are represented by
their spine of entries, so the type is plainly recursive). Documents in
the source are arbitrary picklable objects; this universe is the
embedding's choice of representative value domain. `pyDictNil` is the
empty dict, the value of the indexer's `_NOT_FOUND` sentinel
(`self._NOT_FOUND = \x7b\x7d`). -/
inductive PyVal where
  | pyNone : PyVal
  | pyInt (n : Int) : PyVal
  | pyStr (s : String) : PyVal
  | pyListNil : PyVal
  | pyListCons (head rest : PyVal) : PyVal
  | pyDictNil : PyVal
  | pyDictCons (key value rest : PyVal) : PyVal
  deriving Repr, DecidableEq

/-- Modelled contract of `pickle.dumps`/`pickle.loads`: an opaque,
injective byte encoding of a Python value, with round trip. The wrapper
type keeps encoded byte strings distinct from values; the format itself
is out of scope (spec §6: any encoding supporting round trip is
acceptable). -/
structure Pickled where
  val : PyVal
  deriving Repr, DecidableEq

/-- Model of `pickle.dumps`: encode a value to an opaque byte string. -/
def pickleDumps (v : PyVal) : Pickled := ⟨v⟩

/-- Model of `pickle.loads`: decode an encoded byte string back to the value. -/
def pickleLoads (b : Pickled) : PyVal := b.val

/-- Python truthiness of a pickled byte string. `pickle.dumps` always
returns a non-empty bytes object, so every encoded value is truthy; this
models the `if v` test in `LVDBIndexer.query`. -/
def pickledTruthy (_ : Pickled) : Bool := true

/-- Modelled contract of the plyvel storage engine: the store's state is
the journal of puts, most recent first; `get` returns the most recent
value put for a key (last write wins). -/
abbrev LvlDB : Type := List (Pickled × Pickled)

/-- plyvel `db.get(key)`: the most recently put value for the key, or
None when absent. -/
def dbGet : LvlDB → Pickled → Option Pickled
  | [], _ => none
  | (k', v) :: rest, k => if k' = k then some v else dbGet rest k

/-- plyvel `wb.put(key, value)` inside a write batch: a later put for the
same key shadows an earlier one. -/
def dbPut (db : LvlDB) (k v : Pickled) : LvlDB := (k, v) :: db

/-- The loop body of `LVDBIndexer.add`: for each `(k, d)` pair of
`zip(keys, docs)`, in order, `wb.put(pickle.dumps(k), pickle.dumps(d))`;
the whole batch is applied atomically. -/
def writeBatch (db : LvlDB) (pairs : List (Int × PyVal)) : LvlDB :=
  pairs.foldl (fun acc kd => dbPut acc (pickleDumps (PyVal.pyInt kd.1)) (pickleDumps kd.2)) db

/-- State of `LVDBIndexer`: the storage path, the store contents, and
whether the storage handle is open. The `_NOT_FOUND` sentinel created in
`__init__` is the empty dict; its identity is modelled by the
`QueryRes.notFound` constructor below. -/
structure LVDBIndexer where
  data_path : String
  db : LvlDB
  db_open : Bool
  deriving Repr, DecidableEq

/-- Model of `LVDBIndexer.__init__(data_path)`: open (create) the store at the
path; a fresh store is empty. -/
def LVDBIndexer.init (path : String) : LVDBIndexer :=
  { data_path := path, db := [], db_open := true }

/-- Model of `LVDBIndexer.add(keys, docs)`: one atomic write batch putting
`pickle.dumps(k) ↦ pickle.dumps(d)` for each pair of `zip(keys, docs)`. -/
def LVDBIndexer.add (ix : LVDBIndexer) (keys : List Int) (docs : List PyVal) : LVDBIndexer :=
  { ix with db := writeBatch ix.db (keys.zip docs) }

/-- The result of one lookup in `LVDBIndexer.query`: either a freshly
unpickled document object, or the indexer's `_NOT_FOUND` sentinel object.
`pickle.loads` always allocates a new object, never the sentinel itself,
so the two constructors model Python object identity (`res is
self._NOT_FOUND`). -/
inductive QueryRes where
  | found (d : PyVal) : QueryRes
  | notFound : QueryRes
  deriving Repr, DecidableEq

/-- The Python value carried by a query result: a found result carries
its document; the `_NOT_FOUND` sentinel's value is the empty dict. -/
def QueryRes.pyValOf : QueryRes → PyVal
  | .found d => d
  | .notFound => .pyDictNil

/-- Python `==` between two query results: value comparison of the
underlying objects (as opposed to the identity/type distinction carried
by the constructors). -/
def resValEq (a b : QueryRes) : Bool := a.pyValOf == b.pyValOf

/-- One iteration of the loop in `LVDBIndexer.query`:
`res.append(pickle.loads(v) if v else self._NOT_FOUND)` where
`v = self._db.get(pickle.dumps(k))`. -/
def queryOne (ix : LVDBIndexer) (k : Int) : QueryRes :=
  match dbGet ix.db (pickleDumps (PyVal.pyInt k)) with
  | some v => if pickledTruthy v then QueryRes.found (pickleLoads v) else QueryRes.notFound
  | none => QueryRes.notFound

/-- The accumulator loop of `LVDBIndexer.query`: `res = []`, then for
each key append one lookup result. -/
def queryLoop (ix : LVDBIndexer) : List Int → List QueryRes → List QueryRes
  | [], res => res
  | k :: rest, res => queryLoop ix rest (res ++ [queryOne ix k])

/-- Model of `LVDBIndexer.query(keys, top_k=1)`: returns the accumulated lookup
results; `top_k` is accepted and never used. -/
def LVDBIndexer.query (ix : LVDBIndexer) (keys : List Int) (top_k : Nat) : List QueryRes :=
  let _ := top_k
  queryLoop ix keys []

/-- Model of `LVDBIndexer.close()`: close the storage handle (the base-class
`close` hook is out of scope per spec §1). -/
def LVDBIndexer.close (ix : LVDBIndexer) : LVDBIndexer :=
  { ix with db_open := false }

/-- A Batch: the `(keys, docs)` pair appended to `self._jobs` by one
call to `AsyncLVDBIndexer.add`. -/
abbrev Batch : Type := List Int × List PyVal

/-- State of `AsyncLVDBIndexer`: the inherited synchronous indexer, the
`_is_busy` Event's flag, the `_exit_signal` Event's flag, and the
`_jobs` list. The worker thread itself runs `dbWriteRun` below. -/
structure AsyncLVDBIndexer where
  base : LVDBIndexer
  is_busy : Bool
  exit_signal : Bool
  jobs : List Batch
  deriving Repr, DecidableEq

/-- Model of `AsyncLVDBIndexer.__init__(data_path)`: open the store, create the
two Events (a `threading.Event()` starts with its flag clear) and the
empty jobs list, and start the worker thread. -/
def AsyncLVDBIndexer.init (path : String) : AsyncLVDBIndexer :=
  { base := LVDBIndexer.init path
    is_busy := false
    exit_signal := false
    jobs := [] }

/-- Model of `AsyncLVDBIndexer.add(keys, docs)`: `self._jobs.append((keys, docs))`
— a Python list append adds at the end. Nothing else is touched. -/
def AsyncLVDBIndexer.add (s : AsyncLVDBIndexer) (keys : List Int) (docs : List PyVal) :
    AsyncLVDBIndexer :=
  { s with jobs := s.jobs ++ [(keys, docs)] }

/-- Model of `self._jobs.append(batch)` as the queue's enqueue operation. -/
def jobsEnqueue (jobs : List Batch) (b : Batch) : List Batch := jobs ++ [b]

/-- The dequeue discipline used by `_db_write`: `if self._jobs:` guards a
`self._jobs.pop()`, which removes and returns the LAST element of a
Python list; on an empty list it reports emptiness without blocking. -/
def jobsDequeue (jobs : List Batch) : Option (Batch × List Batch) :=
  match jobs.getLast? with
  | some b => some (b, jobs.dropLast)
  | none => none

/-- Semantics of `threading.Event.wait()` with no timeout returns (without another
thread intervening) exactly when the Event's flag is set; while the flag
is clear the caller blocks. -/
def eventWaitReturns (flag : Bool) : Bool := flag

/-- Model of `AsyncLVDBIndexer.query(keys, top_k=1)`: `self._is_busy.wait()`, then
`super().query(keys, top_k)`. The result is `some` when the wait returns
immediately and the call delegates; `none` models the calling thread
blocking on the Event. -/
def AsyncLVDBIndexer.query (s : AsyncLVDBIndexer) (keys : List Int) (top_k : Nat) :
    Option (List QueryRes) :=
  if eventWaitReturns s.is_busy then some (s.base.query keys top_k) else none

/-- Model of `AsyncLVDBIndexer._add(keys, docs)`: `self._is_busy.set()`, then
`super().add(keys, docs)`, then `self._is_busy.clear()`. -/
def asyncAddInner (s : AsyncLVDBIndexer) (keys : List Int) (docs : List PyVal) :
    AsyncLVDBIndexer :=
  let s1 := { s with is_busy := true }
  let s2 := { s1 with base := s1.base.add keys docs }
  { s2 with is_busy := false }

/-- Python truthiness of a `threading.Event` OBJECT (not of its flag):
`Event` defines neither `__bool__` nor `__len__`, so the object is
always truthy, whatever the flag's value. -/
def eventObjectTruthy (_ : Bool) : Bool := true

/-- The guard of the loop in `AsyncLVDBIndexer._db_write`:
`while not self._exit_signal:` — `not` applied to the truthiness of the
Event object itself, not to `self._exit_signal.is_set()`. -/
def dbWriteLoopGuard (s : AsyncLVDBIndexer) : Bool := !(eventObjectTruthy s.exit_signal)

/-- The body of one iteration of `_db_write`: `if self._jobs:` pop the
last batch and run `self._add` on it; otherwise do nothing. -/
def dbWriteStep (s : AsyncLVDBIndexer) : AsyncLVDBIndexer :=
  match jobsDequeue s.jobs with
  | some (b, rest) => asyncAddInner { s with jobs := rest } b.1 b.2
  | none => s

/-- The worker thread's loop, `AsyncLVDBIndexer._db_write`, run for at
most `fuel` iterations: while the guard holds, perform one step. -/
def dbWriteRun (fuel : Nat) (s : AsyncLVDBIndexer) : AsyncLVDBIndexer :=
  match fuel with
  | 0 => s
  | Nat.succ n => if dbWriteLoopGuard s then dbWriteRun n (dbWriteStep s) else s

/-- The observable steps of `AsyncLVDBIndexer.close`, in the order the
method body performs them. -/
inductive CloseEvent where
  | clearJobs : CloseEvent
  | setExitSignal : CloseEvent
  | joinThread : CloseEvent
  | closeStorage : CloseEvent
  deriving Repr, DecidableEq

/-- Model of `self._jobs.clear()`. -/
def closeStepClearJobs (s : AsyncLVDBIndexer) : AsyncLVDBIndexer × CloseEvent :=
  ({ s with jobs := [] }, CloseEvent.clearJobs)

/-- Model of `self._exit_signal.set()`. -/
def closeStepSetExit (s : AsyncLVDBIndexer) : AsyncLVDBIndexer × CloseEvent :=
  ({ s with exit_signal := true }, CloseEvent.setExitSignal)

/-- Model of `self._thread.join()`: waits for the worker to finish; the state is
unchanged by the join itself. -/
def closeStepJoin (s : AsyncLVDBIndexer) : AsyncLVDBIndexer × CloseEvent :=
  (s, CloseEvent.joinThread)

/-- Model of `super().close()`: close the synchronous indexer's storage handle. -/
def closeStepCloseStorage (s : AsyncLVDBIndexer) : AsyncLVDBIndexer × CloseEvent :=
  ({ s with base := s.base.close }, CloseEvent.closeStorage)

/-- Model of `AsyncLVDBIndexer.close()`: clear the jobs list, set the exit
signal, join the worker thread, then `super().close()`; returns the
final state and the trace of steps in order. -/
def AsyncLVDBIndexer.close (s : AsyncLVDBIndexer) : AsyncLVDBIndexer × List CloseEvent :=
  let p1 := closeStepClearJobs s
  let p2 := closeStepSetExit p1.1
  let p3 := closeStepJoin p2.1
  let p4 := closeStepCloseStorage p3.1
  (p4.1, [p1.2, p2.2, p3.2, p4.2])

/-- A state with one enqueued batch and the exit signal still clear,
exactly as after `__init__` followed by one `add`. -/
def pendingState : AsyncLVDBIndexer :=
  AsyncLVDBIndexer.add (AsyncLVDBIndexer.init "/tmp/idx") [1] [PyVal.pyStr "a"]

/- Helper lemmas about the model. -/

/-- The accumulator loop of `query` appends one result per key. -/
theorem queryLoop_eq (ix : LVDBIndexer) (keys : List Int) (res : List QueryRes) :
    queryLoop ix keys res = res ++ keys.map (queryOne ix) := by
  induction keys generalizing res with
  | nil => simp [queryLoop]
  | cons k rest ih => simp [queryLoop, ih]

/-- One lookup, with the truthiness test resolved: every stored byte
string is a non-empty pickle, so a hit always decodes. -/
theorem queryOne_eq (ix : LVDBIndexer) (k : Int) :
    queryOne ix k
      = match dbGet ix.db (pickleDumps (PyVal.pyInt k)) with
        | some v => QueryRes.found (pickleLoads v)
        | none => QueryRes.notFound := by
  unfold queryOne
  cases dbGet ix.db (pickleDumps (PyVal.pyInt k)) <;> rfl

/-- A get immediately after a put of the same key sees the put value. -/
theorem dbGet_dbPut_self (db : LvlDB) (k v : Pickled) : dbGet (dbPut db k v) k = some v := by
  simp [dbGet, dbPut]

/-- A put of a different key does not change a get. -/
theorem dbGet_dbPut_ne (db : LvlDB) (k' k v : Pickled) (h : k' ≠ k) :
    dbGet (dbPut db k' v) k = dbGet db k := by
  simp [dbGet, dbPut, h]

/-- The modelled encoding is injective on integer keys. -/
theorem pickleDumps_pyInt_ne (a b : Int) (h : a ≠ b) :
    pickleDumps (PyVal.pyInt a) ≠ pickleDumps (PyVal.pyInt b) := by
  intro hc
  exact h (PyVal.pyInt.inj (Pickled.mk.inj hc))

/-- A write batch over an appended pair list is the batch of the first
part followed by the batch of the second. -/
theorem writeBatch_append (db : LvlDB) (ps qs : List (Int × PyVal)) :
    writeBatch db (ps ++ qs) = writeBatch (writeBatch db ps) qs := by
  unfold writeBatch
  exact List.foldl_append _ _ ps qs

/-- A write batch whose keys all encode differently from `ek` leaves the
value at `ek` unchanged. -/
theorem dbGet_writeBatch_skip (ps : List (Int × PyVal)) (db : LvlDB) (ek : Pickled)
    (h : ∀ p ∈ ps, pickleDumps (PyVal.pyInt p.1) ≠ ek) :
    dbGet (writeBatch db ps) ek = dbGet db ek := by
  induction ps generalizing db with
  | nil => rfl
  | cons p rest ih =>
      have hrest : ∀ q ∈ rest, pickleDumps (PyVal.pyInt q.1) ≠ ek := by
        intro q hq
        exact h q (List.mem_cons_of_mem p hq)
      have hstep : writeBatch db (p :: rest)
          = writeBatch (dbPut db (pickleDumps (PyVal.pyInt p.1)) (pickleDumps p.2)) rest := rfl
      rw [hstep, ih _ hrest, dbGet_dbPut_ne _ _ _ _ (h p (List.mem_cons_self p rest))]

/-- Truncating both lists of a zip to their common length changes
nothing: `zip` already stops at the shorter list. -/
theorem zip_eq_zip_take (keys : List Int) (docs : List PyVal) :
    keys.zip docs
      = (keys.take (min keys.length docs.length)).zip (docs.take (min keys.length docs.length)) := by
  induction keys generalizing docs with
  | nil => simp
  | cons a t ih =>
      cases docs with
      | nil => simp
      | cons b t2 =>
          simp [List.zip_cons_cons, Nat.succ_min_succ]
          exact ih t2

/- Claim theorems. -/

/-- C1: the claim says `AsyncLVDBIndexer.query` blocks until the Busy
Flag is CLEAR and that a query issued while no write is in flight
proceeds without waiting. In the code, `query` calls
`self._is_busy.wait()`, which blocks while the Event is clear and
returns when it is set — the opposite polarity: on a fresh indexer (busy
flag clear, no write in flight) the query blocks, and it delegates
precisely when the flag is set, i.e. while a write IS in flight. -/
theorem c1_idle_query_blocks :
    (AsyncLVDBIndexer.init "/tmp/idx").is_busy = false ∧
    AsyncLVDBIndexer.query (AsyncLVDBIndexer.init "/tmp/idx") [1] 1 = none ∧
    AsyncLVDBIndexer.query
        { AsyncLVDBIndexer.init "/tmp/idx" with is_busy := true } [1] 1
      = some (LVDBIndexer.query (LVDBIndexer.init "/tmp/idx") [1] 1) :=
  ⟨rfl, rfl, rfl⟩

/-- C2: the claim says the flusher loop iterates until the exit signal
is set, dequeuing and writing pending batches. In the code the guard is
`while not self._exit_signal:`, which negates the truthiness of the
Event OBJECT (always truthy), so the loop body never executes: from a
state with the exit signal clear and one enqueued batch, any number of
iterations of `_db_write` leaves the state unchanged and nothing ever
reaches the store. -/
theorem c2_flusher_never_runs :
    ∀ fuel : Nat,
      dbWriteRun fuel pendingState = pendingState ∧
      pendingState.exit_signal = false ∧
      pendingState.jobs = [([1], [PyVal.pyStr "a"])] ∧
      pendingState.base.db = [] := by
  intro fuel
  refine ⟨?_, rfl, rfl, rfl⟩
  cases fuel <;> rfl

/-- C3 counterexample: the claim says a call to `LVDBIndexer.add` with
mismatched key/document counts fails fast before any write, leaving
storage unchanged. In the code there is no length check: `zip` silently
truncates, and `add([1, 2], ["a"])` writes the pair for key 1, so
storage IS changed. -/
theorem c3_mismatch_still_writes :
    dbGet ((LVDBIndexer.init "/tmp/idx").add [1, 2] [PyVal.pyStr "a"]).db
        (pickleDumps (PyVal.pyInt 1)) = some (pickleDumps (PyVal.pyStr "a")) ∧
    ((LVDBIndexer.init "/tmp/idx").add [1, 2] [PyVal.pyStr "a"]).db
      ≠ (LVDBIndexer.init "/tmp/idx").db := by
  refine ⟨rfl, ?_⟩
  decide

/-- C3 amended: `LVDBIndexer.add` does not validate the lengths of its
arguments; with mismatched counts it behaves exactly as if both lists
were truncated to their common length — the zipped pairs are written and
the excess keys or documents are silently ignored, with no error. -/
theorem c3_add_truncates (ix : LVDBIndexer) (keys : List Int) (docs : List PyVal) :
    ix.add keys docs
      = ix.add (keys.take (min keys.length docs.length))
          (docs.take (min keys.length docs.length)) := by
  unfold LVDBIndexer.add
  rw [← zip_eq_zip_take]

/-- C4: `LVDBIndexer.query` returns one result per key, in key order:
the decoded stored document for that key when the store has one, and the
Not-Found Sentinel otherwise; the function is total, so a missing key
can never raise. -/
theorem c4_query_shape (ix : LVDBIndexer) (keys : List Int) (top_k : Nat) :
    (LVDBIndexer.query ix keys top_k).length = keys.length ∧
    LVDBIndexer.query ix keys top_k
      = keys.map (fun k =>
          match dbGet ix.db (pickleDumps (PyVal.pyInt k)) with
          | some v => QueryRes.found (pickleLoads v)
          | none => QueryRes.notFound) := by
  have hmap : LVDBIndexer.query ix keys top_k = keys.map (queryOne ix) := by
    simp [LVDBIndexer.query, queryLoop_eq]
  have hfun : queryOne ix = fun k =>
      match dbGet ix.db (pickleDumps (PyVal.pyInt k)) with
      | some v => QueryRes.found (pickleLoads v)
      | none => QueryRes.notFound := funext (queryOne_eq ix)
  constructor
  · rw [hmap, List.length_map]
  · rw [hmap, hfun]

/-- C5: the pending-jobs list is used with stack discipline: `add`
appends at the end, and the flusher's `pop()` removes and returns the
most recently appended batch; an empty list reports emptiness without
blocking. -/
theorem c5_queue_lifo (jobs : List Batch) (b : Batch) :
    jobsDequeue (jobsEnqueue jobs b) = some (b, jobs) ∧
    jobsDequeue ([] : List Batch) = none := by
  constructor
  · simp [jobsDequeue, jobsEnqueue, List.getLast?_concat, List.dropLast_concat]
  · rfl

/-- C6: `AsyncLVDBIndexer.close` performs, in order: clear the jobs
list, set the exit signal, join the worker, close the storage handle;
the final state has an empty queue, the signal set, the handle closed
and the store contents untouched (discarded batches are never flushed).
The join cannot hang: the worker loop's guard is false in every state,
so the worker makes no further iterations no matter how long it runs —
even when batches were enqueued just before the close. -/
theorem c6_close_order_and_termination (s : AsyncLVDBIndexer) (fuel : Nat) :
    (AsyncLVDBIndexer.close s).2
      = [CloseEvent.clearJobs, CloseEvent.setExitSignal, CloseEvent.joinThread,
         CloseEvent.closeStorage] ∧
    (AsyncLVDBIndexer.close s).1.jobs = [] ∧
    (AsyncLVDBIndexer.close s).1.exit_signal = true ∧
    (AsyncLVDBIndexer.close s).1.base.db_open = false ∧
    (AsyncLVDBIndexer.close s).1.base.db = s.base.db ∧
    dbWriteRun fuel s = s := by
  refine ⟨rfl, rfl, rfl, rfl, rfl, ?_⟩
  cases fuel <;> rfl

/-- C7: `AsyncLVDBIndexer.add` only appends one batch at the end of the
jobs list; the synchronous indexer (storage contents and handle), the
busy flag and the exit signal are all left unchanged, and the model is a
total function (no blocking, no storage effect at call time). -/
theorem c7_add_frame (s : AsyncLVDBIndexer) (keys : List Int) (docs : List PyVal) :
    (s.add keys docs).jobs = s.jobs ++ [(keys, docs)] ∧
    (s.add keys docs).base = s.base ∧
    (s.add keys docs).is_busy = s.is_busy ∧
    (s.add keys docs).exit_signal = s.exit_signal :=
  ⟨rfl, rfl, rfl, rfl⟩

/-- C8: the `top_k` argument of `LVDBIndexer.query` is accepted and
never read, so every call returns exactly what `top_k = 1` returns. -/
theorem c8_top_k_no_effect (ix : LVDBIndexer) (keys : List Int) (top_k : Nat) :
    LVDBIndexer.query ix keys top_k = LVDBIndexer.query ix keys 1 := rfl

/-- C9: a key with no stored value queries to the Not-Found Sentinel,
adds of other keys never create it (so a never-added key stays absent),
and the sentinel is distinguished from every decoded document by
object identity (the constructors), not by value: a decoded empty dict
compares value-equal to the sentinel yet is a distinct result. -/
theorem c9_not_found_sentinel (ix : LVDBIndexer) (k : Int) (top_k : Nat) (d : PyVal)
    (keys : List Int) (docs : List PyVal)
    (habs : dbGet ix.db (pickleDumps (PyVal.pyInt k)) = none)
    (hk : k ∉ keys) :
    LVDBIndexer.query ix [k] top_k = [QueryRes.notFound] ∧
    QueryRes.found d ≠ QueryRes.notFound ∧
    resValEq (QueryRes.found PyVal.pyDictNil) QueryRes.notFound = true ∧
    dbGet ((ix.add keys docs).db) (pickleDumps (PyVal.pyInt k))
      = dbGet ix.db (pickleDumps (PyVal.pyInt k)) := by
  refine ⟨?_, by simp, rfl, ?_⟩
  · simp [LVDBIndexer.query, queryLoop, queryOne, habs]
  · unfold LVDBIndexer.add
    apply dbGet_writeBatch_skip
    intro p hp
    have hp1 : p.1 ∈ keys := by
      obtain ⟨a, b⟩ := p
      exact (List.of_mem_zip hp).1
    exact pickleDumps_pyInt_ne p.1 k (fun he => hk (he ▸ hp1))

/-- C9 witness: the theorem at a fresh indexer, key 0, the
value-colliding empty-dict document, and a batch adding only key 1. -/
theorem c9_not_found_sentinel_witness :
    LVDBIndexer.query (LVDBIndexer.init "/tmp/idx") [0] 1 = [QueryRes.notFound] ∧
    QueryRes.found PyVal.pyDictNil ≠ QueryRes.notFound ∧
    resValEq (QueryRes.found PyVal.pyDictNil) QueryRes.notFound = true ∧
    dbGet (((LVDBIndexer.init "/tmp/idx").add [1] [PyVal.pyStr "a"]).db)
        (pickleDumps (PyVal.pyInt 0))
      = dbGet (LVDBIndexer.init "/tmp/idx").db (pickleDumps (PyVal.pyInt 0)) :=
  c9_not_found_sentinel (LVDBIndexer.init "/tmp/idx") 0 1 PyVal.pyDictNil [1]
    [PyVal.pyStr "a"] rfl (by decide)

/-- C10: when one `add` batch contains the same key more than once, the
document paired with the last occurrence is what the store keeps (later
puts in the same write batch shadow earlier ones), and a subsequent
query for that key returns exactly that document. The batch is shaped
`keys1 ++ k :: keys2` with `k ∈ keys1` (an earlier duplicate) and
`k ∉ keys2` (the shown occurrence is the last). -/
theorem c10_last_duplicate_wins (ix : LVDBIndexer) (keys1 keys2 : List Int)
    (docs1 docs2 : List PyVal) (k : Int) (d : PyVal) (top_k : Nat)
    (hlen : keys1.length = docs1.length) (_hdup : k ∈ keys1) (hk2 : k ∉ keys2) :
    dbGet ((ix.add (keys1 ++ k :: keys2) (docs1 ++ d :: docs2)).db)
        (pickleDumps (PyVal.pyInt k)) = some (pickleDumps d) ∧
    (ix.add (keys1 ++ k :: keys2) (docs1 ++ d :: docs2)).query [k] top_k
      = [QueryRes.found d] := by
  have hzip : (keys1 ++ k :: keys2).zip (docs1 ++ d :: docs2)
      = keys1.zip docs1 ++ (k, d) :: keys2.zip docs2 := by
    rw [List.zip_append hlen]
    rfl
  have hget : dbGet ((ix.add (keys1 ++ k :: keys2) (docs1 ++ d :: docs2)).db)
      (pickleDumps (PyVal.pyInt k)) = some (pickleDumps d) := by
    unfold LVDBIndexer.add
    rw [hzip, writeBatch_append]
    have hstep : writeBatch (writeBatch ix.db (keys1.zip docs1)) ((k, d) :: keys2.zip docs2)
        = writeBatch (dbPut (writeBatch ix.db (keys1.zip docs1))
            (pickleDumps (PyVal.pyInt k)) (pickleDumps d)) (keys2.zip docs2) := rfl
    rw [hstep, dbGet_writeBatch_skip]
    · exact dbGet_dbPut_self _ _ _
    · intro p hp
      have hp1 : p.1 ∈ keys2 := by
        obtain ⟨a, b⟩ := p
        exact (List.of_mem_zip hp).1
      exact pickleDumps_pyInt_ne p.1 k (fun he => hk2 (he ▸ hp1))
  refine ⟨hget, ?_⟩
  have hq : (ix.add (keys1 ++ k :: keys2) (docs1 ++ d :: docs2)).query [k] top_k
      = [queryOne (ix.add (keys1 ++ k :: keys2) (docs1 ++ d :: docs2)) k] := by
    simp [LVDBIndexer.query, queryLoop]
  rw [hq, queryOne_eq, hget]
  rfl

/-- C10 witness: the batch `add([5, 5, 7], ["old", "new", "x"])` stores
"new" under key 5 and the query returns it. -/
theorem c10_last_duplicate_wins_witness :
    dbGet (((LVDBIndexer.init "/tmp/idx").add ([5] ++ 5 :: [7])
          ([PyVal.pyStr "old"] ++ PyVal.pyStr "new" :: [PyVal.pyStr "x"])).db)
        (pickleDumps (PyVal.pyInt 5)) = some (pickleDumps (PyVal.pyStr "new")) ∧
    ((LVDBIndexer.init "/tmp/idx").add ([5] ++ 5 :: [7])
        ([PyVal.pyStr "old"] ++ PyVal.pyStr "new" :: [PyVal.pyStr "x"])).query [5] 1
      = [QueryRes.found (PyVal.pyStr "new")] :=
  c10_last_duplicate_wins (LVDBIndexer.init "/tmp/idx") [5] [7] [PyVal.pyStr "old"]
    [PyVal.pyStr "x"] 5 (PyVal.pyStr "new") 1 rfl (by decide) (by decide)

end Gnes
